import Mathlib

/-!
# Verification of the notification dispatch core of ticket-slave

Shallow embedding of `src/app/notifications_core.py` (the notification
dispatch core) together with the pieces of its environment it touches:
the settings table, the tickets/users tables, and the SMTP transport.

Python exceptions are modelled with an explicit exception type `PyExn`;
functions whose Python originals may raise return `Except PyExn _` or
carry an `Option PyExn` component.  Database reads and network I/O are
abstracted as oracles (`Env`, `SmtpOracle`) supplied as arguments: the
Python functions read the database and the network, so each Lean
definition is a function of those oracles.  Observable behaviour — log
calls and scheduled channel sends / SMTP protocol actions — is returned
as explicit lists, in the order the source performs them.
-/

namespace TicketSlave

/-- A Python exception, as far as the code under study distinguishes them:
`NameError` (an unbound name), database errors, `smtplib.SMTPAuthenticationError`,
and any other transport/OS error raised during SMTP I/O. -/
inductive PyExn where
  | nameError (name : String)
  | dbError (msg : String)
  | smtpAuthError (msg : String)
  | smtpOtherError (msg : String)
  deriving DecidableEq, Repr

/-- Log levels used by the module (`logger.info` / `logger.warning` / `logger.error`).
`debug` appears only in `test_smtp_connection` and is not observable for any claim,
so it is omitted. -/
inductive LogLevel where
  | info
  | warning
  | error
  deriving DecidableEq, Repr

/-- One `logger.<level>(...)` call.  The `tag` is a short stable identifier for the
particular call site; the mapping to source lines is given where each tag is
produced. -/
structure LogEvent where
  level : LogLevel
  tag : String
  deriving DecidableEq, Repr

/-- One scheduled channel send, i.e. one `run_in_app_context(app, sender, args...)`
call made by `notify_assigned_user` (lines 250-270).  Arguments are recorded in the
order the source passes them. -/
inductive Send where
  | pushover (user_key api_token title message : String)
  | email (subject body to_email : String)
  | apprise (apprise_url title body : String)
  deriving DecidableEq, Repr

/-- Row of the `tickets` table as selected at line 186:
`SELECT id, title, status, priority, assigned_to FROM tickets WHERE id = ?`.
`assigned_to` is nullable. -/
structure Ticket where
  id : Int
  title : String
  status : String
  priority : String
  assigned_to : Option Int
  deriving DecidableEq, Repr

/-- Row of the `users` table as selected at lines 195-199.  The three
`notify_*` flags are 0/1 integers in the database; the credential columns are
nullable strings, with SQL NULL modelled as `""` (Python treats `None` and `""`
identically in every truthiness test the module performs on them). -/
structure User where
  id : Int
  username : String
  email : String
  pushover_user_key : String
  pushover_api_token : String
  apprise_url : String
  notify_email : Int
  notify_pushover : Int
  notify_apprise : Int
  deriving DecidableEq, Repr

/-- Python truthiness of a nullable integer column (`if not ticket[assigned_to]`,
line 190): falsy exactly when NULL or 0. -/
def pyTruthyOptInt : Option Int → Bool
  | none => false
  | some n => n != 0

/-- The database as seen by `notify_assigned_user`: the two `fetchone` queries
(lines 186 and 195).  Either may raise (modelled by `.error`), return no row
(`.ok none`), or return a row. -/
structure Env where
  fetchTicket : Int → Except PyExn (Option Ticket)
  fetchUser : Int → Except PyExn (Option User)

/-- What a call to `notify_assigned_user` did: the log calls it made, in order,
and the channel sends it scheduled through `run_in_app_context`, in order. -/
structure DispatchResult where
  logs : List LogEvent
  sends : List Send
  deriving DecidableEq, Repr

/-- Evaluation of the name `url_for` at line 224 of
`src/app/notifications_core.py`.  The module imports (lines 9-15) are
`smtplib`, `email.mime.text.MIMEText`, `requests`, `apprise.Apprise`,
`app.db.db_manager`, `utils.context_runner.run_in_app_context` and
`flask.current_app`; `url_for` is neither among them nor defined in the
module, and no other module assigns into the globals of this module, so
evaluating the name raises `NameError`. -/
def url_for_eval : Except PyExn String := .error (.nameError "url_for")

/-- Lines 221-240 of `notify_assigned_user`: evaluate
`url_for(tickets_bp.ticket_detail, ticket_id=ticket_id, _external=True)` and
then select the (subject, message_body) template from `event_type`.
`.ok none` models the `else` branch (unknown event type, line 238). -/
def buildMessage (ticket_id : Int) (event_type : String) (ticket : Ticket) :
    Except PyExn (Option (String × String)) :=
  match url_for_eval with
  | .error e => .error e
  | .ok ticket_url =>
    let t := ticket.title
    if event_type = "assigned" ∨ event_type = "assigned_on_creation" then
      .ok (some (s!"Ticket #{ticket_id} Has Been Assigned To You",
        s!"You have been assigned to ticket #{ticket_id}: \x27{t}\x27.\nView: {ticket_url}"))
    else if event_type = "status_update" then
      let st := ticket.status
      .ok (some (s!"Status Update on Ticket #{ticket_id}",
        s!"The status of ticket #{ticket_id} (\x27{t}\x27) has been updated to \x27{st}\x27.\nView: {ticket_url}"))
    else if event_type = "priority_update" then
      let pr := ticket.priority
      .ok (some (s!"Priority Update on Ticket #{ticket_id}",
        s!"The priority of ticket #{ticket_id} (\x27{t}\x27) has been updated to \x27{pr}\x27.\nView: {ticket_url}"))
    else if event_type = "new_comment" then
      .ok (some (s!"New Comment on Ticket #{ticket_id}",
        s!"A new comment has been added to ticket #{ticket_id} (\x27{t}\x27).\nView: {ticket_url}"))
    else
      .ok none

/-- Lines 250-270 of `notify_assigned_user`: the three per-channel dispatch
blocks, in source order (Pushover, then Email, then Apprise).  Each channel is
attempted exactly when its 0/1 flag is truthy and its credential strings are
truthy (non-empty); each attempted channel logs one "Queuing" info line and
schedules one send. -/
def scheduleSends (u : User) (subject message_body : String) :
    List LogEvent × List Send :=
  let pushoverOn := u.notify_pushover != 0 && u.pushover_user_key != "" &&
    u.pushover_api_token != ""
  let emailOn := u.notify_email != 0 && u.email != ""
  let appriseOn := u.notify_apprise != 0 && u.apprise_url != ""
  let p : List LogEvent × List Send :=
    if pushoverOn then
      ([⟨.info, "queuing_pushover"⟩],
       [.pushover u.pushover_user_key u.pushover_api_token subject message_body])
    else ([], [])
  let e : List LogEvent × List Send :=
    if emailOn then
      ([⟨.info, "queuing_email"⟩], [.email subject message_body u.email])
    else ([], [])
  let a : List LogEvent × List Send :=
    if appriseOn then
      ([⟨.info, "queuing_apprise"⟩],
       [.apprise u.apprise_url subject message_body])
    else ([], [])
  (p.1 ++ e.1 ++ a.1, p.2 ++ e.2 ++ a.2)

/-- The body of the `try:` block of `notify_assigned_user` (lines 184-270).
An uncaught exception inside the block is returned as `.error`; every send is
scheduled only after all possible raise points, so no partially-performed send
list needs to accompany an error.  Log tags: `ticket_not_found` = line 188,
`ticket_not_assigned` = line 191, `assigned_user_not_found` = line 202,
`self_notification_skipped` = line 214, `unknown_event_type` = line 239,
`preparing_notifications` = line 242. -/
def notify_assigned_user_body (env : Env) (ticket_id : Int) (event_type : String)
    (triggering_user_id : Option Int) : Except PyExn DispatchResult :=
  match env.fetchTicket ticket_id with
  | .error e => .error e
  | .ok none => .ok ⟨[⟨.warning, "ticket_not_found"⟩], []⟩
  | .ok (some ticket) =>
    if pyTruthyOptInt ticket.assigned_to = false then
      .ok ⟨[⟨.info, "ticket_not_assigned"⟩], []⟩
    else
      match env.fetchUser (ticket.assigned_to.getD 0) with
      | .error e => .error e
      | .ok none => .ok ⟨[⟨.warning, "assigned_user_not_found"⟩], []⟩
      | .ok (some assigned_user) =>
        if triggering_user_id ≠ none ∧ triggering_user_id = some assigned_user.id then
          .ok ⟨[⟨.info, "self_notification_skipped"⟩], []⟩
        else
          match buildMessage ticket_id event_type ticket with
          | .error e => .error e
          | .ok none => .ok ⟨[⟨.warning, "unknown_event_type"⟩], []⟩
          | .ok (some sm) =>
            let r := scheduleSends assigned_user sm.1 sm.2
            .ok ⟨⟨.info, "preparing_notifications"⟩ :: r.1, r.2⟩

/-- `notify_assigned_user(ticket_id, event_type, triggering_user_id)`
(lines 161-278).  The whole body sits in one `try: ... except Exception:`
whose handler logs an error (line 273, tag `notify_unexpected_error`) and
falls off the end of the function, so the function always returns `.ok`. -/
def notify_assigned_user (env : Env) (ticket_id : Int) (event_type : String)
    (triggering_user_id : Option Int) : Except PyExn DispatchResult :=
  match notify_assigned_user_body env ticket_id event_type triggering_user_id with
  | .error _ => .ok ⟨[⟨.error, "notify_unexpected_error"⟩], []⟩
  | .ok r => .ok r

/-! ## The mail side: settings, port parsing, SMTP sessions -/

/-- The settings table, as the dict built at lines 32-33 / 298-299
(a dict comprehension over the rows): a partial map from key
to string value.  Keys in the `settings` table are unique, so a function
model is exact. -/
abbrev Settings : Type := String → Option String

/-- Strip of surrounding whitespace, on the character list of a string. -/
def pyStrip (cs : List Char) : List Char :=
  ((cs.dropWhile (·.isWhitespace)).reverse.dropWhile (·.isWhitespace)).reverse

/-- Decimal digit run: `none` unless the list is a non-empty run of ASCII
digits, else its value. -/
def pyIntDigits (cs : List Char) : Option Nat :=
  if cs = [] then none
  else if cs.all (·.isDigit) then
    some (cs.foldl (fun a c => a * 10 + (c.toNat - 48)) 0)
  else none

/-- Model of Python `int(s)` on a decimal string, as called at lines 47 and
311: surrounding whitespace is ignored, one optional sign may precede the
digits, and anything else raises `ValueError` (modelled as `none`).  (Digit
grouping with underscores and non-ASCII digits are not modelled; no settings
value in the claims uses them.) -/
def pyIntParse (s : String) : Option Int :=
  match pyStrip s.toList with
  | '-' :: cs => (pyIntDigits cs).map (fun n => -(n : Int))
  | '+' :: cs => (pyIntDigits cs).map (fun n => (n : Int))
  | cs => (pyIntDigits cs).map (fun n => (n : Int))

/-- One SMTP protocol action performed against the server, in the order the
source performs them.  `connect` records the host, port and the `timeout=`
argument passed to `smtplib.SMTP`; `sendMessage` records the recipient list
of the message handed to `server.send_message`. -/
inductive SmtpAction where
  | connect (host : String) (port : Int) (timeout : Int)
  | ehlo
  | starttls
  | login (user : String)
  | sendMessage (recipients : List String)
  deriving DecidableEq, Repr

/-- The SMTP server as an oracle: for each protocol operation, `none` means the
operation succeeds and `some e` means it raises `e`. -/
structure SmtpOracle where
  connectR : String → Int → Option PyExn
  ehloR : Option PyExn
  starttlsR : Option PyExn
  loginR : String → String → Option PyExn
  sendR : Option PyExn

/-- Sequencing of one (possibly skipped) SMTP operation after a prefix of the
session: if the prefix already raised, nothing more happens; otherwise, when
`doIt` holds, the action is performed (recorded in the trace) and its oracle
outcome becomes the session outcome so far. -/
def smtpStep (prev : List SmtpAction × Option PyExn) (doIt : Bool)
    (act : SmtpAction) (res : Option PyExn) : List SmtpAction × Option PyExn :=
  match prev with
  | (tr, some e) => (tr, some e)
  | (tr, none) => if doIt then (tr ++ [act], res) else (tr, none)

/-- The `with smtplib.SMTP(...)` block of `send_email_notification`
(lines 79-84): connect with `timeout=15`, `starttls()` exactly when the TLS
flag is set, `login()` exactly when both username and password are non-empty,
then `send_message(msg)` where `msg[To] = to_email` (one recipient).
Returns the trace of performed actions and the exception that escaped the
block, if any. -/
def emailSmtpSession (net : SmtpOracle) (server : String) (port : Int)
    (use_tls : Bool) (user password to_email : String) :
    List SmtpAction × Option PyExn :=
  let s0 := smtpStep ([], none) true (.connect server port 15)
    (net.connectR server port)
  let s1 := smtpStep s0 use_tls .starttls net.starttlsR
  let s2 := smtpStep s1 (user != "" && password != "") (.login user)
    (net.loginR user password)
  smtpStep s2 true (.sendMessage [to_email]) net.sendR

/-- `send_email_notification(subject, body, to_email)` (lines 17-88).
`settingsLoad` models the `db_manager.fetchall` of lines 32-33 (which may
raise).  Log tags: `settings_load_failed` = line 35, `invalid_smtp_port` =
line 49, `smtp_not_configured` = line 65, `email_sent` = line 86,
`email_send_failed` = line 88.  The function always returns normally; its
observable behaviour is its logs and its SMTP actions. -/
def send_email_notification (settingsLoad : Except PyExn Settings)
    (net : SmtpOracle) (subject body to_email : String) :
    List LogEvent × List SmtpAction :=
  match settingsLoad with
  | .error _ => ([⟨.error, "settings_load_failed"⟩], [])
  | .ok settings =>
    let smtp_server := (settings "smtp_server").getD ""
    let smtp_port_str := (settings "smtp_port").getD "587"
    let smtp_user := (settings "smtp_username").getD ""
    let smtp_password := (settings "smtp_password").getD ""
    let from_email := (settings "smtp_from_email").getD "no-reply@example.com"
    let use_tls := (settings "smtp_use_tls").getD "0" == "1"
    let pp := pyIntParse smtp_port_str
    let portLogs : List LogEvent :=
      match pp with
      | some _ => []
      | none => [⟨.error, "invalid_smtp_port"⟩]
    let smtp_port : Int := (pp).getD 587
    if smtp_server = "" ∨ from_email = "" then
      (portLogs ++ [⟨.warning, "smtp_not_configured"⟩], [])
    else
      let sess := emailSmtpSession net smtp_server smtp_port use_tls smtp_user
        smtp_password to_email
      match sess.2 with
      | none => (portLogs ++ [⟨.info, "email_sent"⟩], sess.1)
      | some _ => (portLogs ++ [⟨.error, "email_send_failed"⟩], sess.1)

/-- Result of `test_smtp_connection()`: `ok` models `return True`,
`valueError` / `runtimeError` model the two exception types the function
raises, `runtimeError` carrying the underlying exception it wraps. -/
inductive SmtpTestResult where
  | ok
  | valueError (msg : String)
  | runtimeError (wrapped : PyExn)
  deriving DecidableEq, Repr

/-- The `with smtplib.SMTP(...)` block of `test_smtp_connection`
(lines 329-338): connect with `timeout=10`, `ehlo()`, then when the TLS flag
is set `starttls()` followed by a second `ehlo()`, then `login()` exactly
when both username and password are non-empty.  No message is sent. -/
def testSmtpSession (net : SmtpOracle) (server : String) (port : Int)
    (use_tls : Bool) (user password : String) :
    List SmtpAction × Option PyExn :=
  let s0 := smtpStep ([], none) true (.connect server port 10)
    (net.connectR server port)
  let s1 := smtpStep s0 true .ehlo net.ehloR
  let s2 := smtpStep s1 use_tls .starttls net.starttlsR
  let s3 := smtpStep s2 use_tls .ehlo net.ehloR
  smtpStep s3 (user != "" && password != "") (.login user)
    (net.loginR user password)

/-- `test_smtp_connection()` (lines 280-346).  Raises `ValueError` when the
settings cannot be loaded (line 302), when the configured port is not a number
(line 314), or when the server address is unset (line 325); wraps any
exception escaping the handshake in a `RuntimeError` (lines 341-346, the
authentication case and the generic case both re-raising as `RuntimeError`
around the caught exception); returns `True` only when the whole handshake
succeeds.  Also returns the trace of SMTP actions performed. -/
def test_smtp_connection (settingsLoad : Except PyExn Settings)
    (net : SmtpOracle) : SmtpTestResult × List SmtpAction :=
  match settingsLoad with
  | .error _ =>
    (.valueError "Could not load SMTP settings from the database for testing.", [])
  | .ok settings =>
    let smtp_server := (settings "smtp_server").getD ""
    let smtp_port_str := (settings "smtp_port").getD "587"
    let smtp_user := (settings "smtp_username").getD ""
    let smtp_password := (settings "smtp_password").getD ""
    let smtp_use_tls := (settings "smtp_use_tls").getD "0" == "1"
    match pyIntParse smtp_port_str with
    | none => (.valueError s!"Invalid SMTP port: \x27{smtp_port_str}\x27. Must be a number.", [])
    | some smtp_port =>
      if smtp_server = "" then
        (.valueError "SMTP server address is not configured in application settings.", [])
      else
        let sess := testSmtpSession net smtp_server smtp_port smtp_use_tls
          smtp_user smtp_password
        match sess.2 with
        | none => (.ok, sess.1)
        | some e =>
          match e with
          | .smtpAuthError m => (.runtimeError (.smtpAuthError m), sess.1)
          | e2 => (.runtimeError e2, sess.1)

/-- Discriminator: did the self-test end in a `ValueError` (the configuration
error class of `test_smtp_connection`)? -/
def SmtpTestResult.isValueError : SmtpTestResult → Bool
  | .valueError _ => true
  | _ => false

/-- Discriminator: is an SMTP action a `send_message` call? -/
def SmtpAction.isSend : SmtpAction → Bool
  | .sendMessage _ => true
  | _ => false

/-! ## Concrete instances used by witnesses and counterexamples -/

/-- Ticket #7, assigned to user 2. -/
def ticketSeven : Ticket :=
  { id := 7, title := "Printer down", status := "open", priority := "high",
    assigned_to := some 2 }

/-- User 2: Pushover enabled with both credentials set, other channels off. -/
def userTwo : User :=
  { id := 2, username := "bob", email := "bob@example.com",
    pushover_user_key := "po-user-key", pushover_api_token := "po-api-token",
    apprise_url := "", notify_email := 0, notify_pushover := 1,
    notify_apprise := 0 }

/-- A database holding exactly ticket #7 and user 2. -/
def envSeven : Env where
  fetchTicket := fun tid => if tid = 7 then .ok (some ticketSeven) else .ok none
  fetchUser := fun uid => if uid = 2 then .ok (some userTwo) else .ok none

/-- Ticket #2, with no assignee. -/
def ticketTwo : Ticket :=
  { id := 2, title := "t", status := "open", priority := "low",
    assigned_to := none }

/-- A database holding exactly ticket #2, which is unassigned. -/
def envUnassigned : Env where
  fetchTicket := fun tid => if tid = 2 then .ok (some ticketTwo) else .ok none
  fetchUser := fun _ => .ok none

/-- An SMTP server on which every operation succeeds. -/
def netAllOk : SmtpOracle :=
  { connectR := fun _ _ => none, ehloR := none, starttlsR := none,
    loginR := fun _ _ => none, sendR := none }

/-- Settings with only `smtp_server` configured; in particular the
`smtp_from_email` key is absent. -/
def settingsHostOnly : Settings := fun k =>
  if k = "smtp_server" then some "mail.example.com" else none

/-- Settings with `smtp_server` configured and `smtp_from_email` present but
empty. -/
def settingsEmptyFrom : Settings := fun k =>
  if k = "smtp_server" then some "mail.example.com"
  else if k = "smtp_from_email" then some "" else none

/-- A fully configured mail setup: host, port, from-address, credentials and
TLS flag all set. -/
def settingsFull : Settings := fun k =>
  if k = "smtp_server" then some "smtp.example.com"
  else if k = "smtp_port" then some "2525"
  else if k = "smtp_from_email" then some "helpdesk@example.com"
  else if k = "smtp_username" then some "mailer"
  else if k = "smtp_password" then some "hunter2"
  else if k = "smtp_use_tls" then some "1"
  else none

/-- An empty settings table: in particular `smtp_server` is unset. -/
def settingsHostless : Settings := fun _ => none

/-- Settings with a host but a non-numeric `smtp_port`. -/
def settingsBadPort : Settings := fun k =>
  if k = "smtp_server" then some "mail.example.com"
  else if k = "smtp_port" then some "abc" else none

/-! ## Helper lemmas -/

/-- `buildMessage` raises unconditionally: the `url_for` evaluation at
line 224 precedes the whole `if/elif` chain, so no template (and no branch of
the chain, including the unknown-event warning) is ever reached. -/
theorem buildMessage_always_error (ticket_id : Int) (event_type : String)
    (ticket : Ticket) :
    buildMessage ticket_id event_type ticket = .error (.nameError "url_for") :=
  rfl

/-- An action in the trace of an `smtpStep` is either from the preceding trace
or the stepped action itself. -/
theorem smtpStep_subset (prev : List SmtpAction × Option PyExn) (doIt : Bool)
    (act : SmtpAction) (res : Option PyExn) (x : SmtpAction)
    (hx : x ∈ (smtpStep prev doIt act res).1) : x ∈ prev.1 ∨ x = act := by
  rcases prev with ⟨tr, e⟩
  cases e with
  | some e => exact .inl hx
  | none =>
    by_cases hd : doIt
    · simp only [smtpStep, hd, if_true] at hx
      rcases List.mem_append.mp hx with h | h
      · exact .inl h
      · exact .inr (List.mem_singleton.mp h)
    · simp only [smtpStep, hd, if_false] at hx
      exact .inl hx

/-- `smtpStep` only extends the trace. -/
theorem smtpStep_mem_mono (prev : List SmtpAction × Option PyExn) (doIt : Bool)
    (act : SmtpAction) (res : Option PyExn) (x : SmtpAction)
    (hx : x ∈ prev.1) : x ∈ (smtpStep prev doIt act res).1 := by
  rcases prev with ⟨tr, e⟩
  cases e with
  | some e => exact hx
  | none =>
    by_cases hd : doIt
    · simp only [smtpStep, hd, if_true]
      exact List.mem_append_left _ hx
    · simpa only [smtpStep, hd, if_false] using hx

/-- The test handshake never performs a `send_message`. -/
theorem testSmtpSession_no_send (net : SmtpOracle) (server : String)
    (port : Int) (use_tls : Bool) (user password : String) (rs : List String) :
    SmtpAction.sendMessage rs ∉
      (testSmtpSession net server port use_tls user password).1 := by
  intro hx
  simp only [testSmtpSession] at hx
  rcases smtpStep_subset _ _ _ _ _ hx with h | h
  swap
  · exact SmtpAction.noConfusion h
  rcases smtpStep_subset _ _ _ _ _ h with h | h
  swap
  · exact SmtpAction.noConfusion h
  rcases smtpStep_subset _ _ _ _ _ h with h | h
  swap
  · exact SmtpAction.noConfusion h
  rcases smtpStep_subset _ _ _ _ _ h with h | h
  swap
  · exact SmtpAction.noConfusion h
  rcases smtpStep_subset _ _ _ _ _ h with h | h
  · simp at h
  · exact SmtpAction.noConfusion h

/-- When every SMTP operation succeeds, the mail-sending session performs
exactly: connect (timeout 15), STARTTLS iff the TLS flag, login iff both
credentials are non-empty, and one single-recipient send. -/
theorem emailSmtpSession_success (net : SmtpOracle) (server : String)
    (port : Int) (use_tls : Bool) (user password to_email : String)
    (hc : net.connectR server port = none) (ht : net.starttlsR = none)
    (hl : net.loginR user password = none) (hs : net.sendR = none) :
    emailSmtpSession net server port use_tls user password to_email =
      (SmtpAction.connect server port 15 ::
        ((if use_tls then [SmtpAction.starttls] else []) ++
         (if user != "" && password != "" then [SmtpAction.login user] else []) ++
         [SmtpAction.sendMessage [to_email]]), none) := by
  unfold emailSmtpSession
  cases use_tls <;> cases hlb : (user != "" && password != "") <;>
    simp [smtpStep, hc, ht, hl, hs, hlb]

/-- The connect action (with its timeout argument) is always in the trace of
the mail-sending session, whatever the outcome. -/
theorem emailSmtpSession_connect_mem (net : SmtpOracle) (server : String)
    (port : Int) (use_tls : Bool) (user password to_email : String) :
    SmtpAction.connect server port 15 ∈
      (emailSmtpSession net server port use_tls user password to_email).1 := by
  unfold emailSmtpSession
  apply smtpStep_mem_mono
  apply smtpStep_mem_mono
  apply smtpStep_mem_mono
  cases hc : net.connectR server port <;> simp [smtpStep, hc]

/-- Every terminating branch of the body of `notify_assigned_user` returns an
empty send list: all early returns are empty, and the scheduling block is
unreachable because `buildMessage` always raises. -/
theorem notify_body_sends_nil (env : Env) (ticket_id : Int)
    (event_type : String) (triggering_user_id : Option Int)
    (r : DispatchResult)
    (h : notify_assigned_user_body env ticket_id event_type triggering_user_id
      = .ok r) : r.sends = [] := by
  unfold notify_assigned_user_body at h
  simp only [buildMessage_always_error] at h
  repeat' split at h
  all_goals first
    | exact Except.noConfusion h
    | (injection h with h2; subst h2; rfl)

/-! ## Claim theorems -/

/-- C1: the claim says a dispatch with event type "assigned", an existing
ticket (#7), an assignee (user 2) with `notify_pushover` set and both Pushover
credentials non-empty, and a different triggering user (1), schedules exactly
one Push Sender invocation titled "Ticket #7 Has Been Assigned To You".  The
code instead evaluates the unbound name `url_for` before any scheduling, the
resulting `NameError` is swallowed by the catch-all handler, and zero sends
are scheduled; the only log event is the handler error.  This theorem
evaluates the code at that failing input. -/
theorem claim_C1_assigned_push_code_result :
    notify_assigned_user envSeven 7 "assigned" (some 1) =
      .ok { logs := [⟨.error, "notify_unexpected_error"⟩], sends := [] } :=
  rfl

/-- C2: whenever the triggering user id equals the assigned user id, the
dispatcher returns at the self-suppression check (line 213) with zero channel
sends scheduled, whatever the assignee channel flags and credentials are; the
comparison uses the id only (the username field of `u` is unconstrained). -/
theorem claim_C2_self_suppression (env : Env) (ticket_id : Int)
    (event_type : String) (t : Ticket) (u : User)
    (ht : env.fetchTicket ticket_id = .ok (some t))
    (ha : pyTruthyOptInt t.assigned_to = true)
    (hu : env.fetchUser (t.assigned_to.getD 0) = .ok (some u)) :
    notify_assigned_user env ticket_id event_type (some u.id) =
      .ok { logs := [⟨.info, "self_notification_skipped"⟩], sends := [] } := by
  simp [notify_assigned_user, notify_assigned_user_body, ht, ha, hu]

/-- C2 witness: user 2 assigns-related event on their own ticket #7. -/
theorem claim_C2_self_suppression_witness :
    notify_assigned_user envSeven 7 "assigned" (some 2) =
      .ok { logs := [⟨.info, "self_notification_skipped"⟩], sends := [] } :=
  claim_C2_self_suppression envSeven 7 "assigned" ticketSeven userTwo
    rfl rfl rfl

/-- C3: a dispatch whose ticket id resolves to no ticket, or to a ticket with
a NULL/zero `assigned_to`, logs (a warning resp. an info line) and returns
with zero sends scheduled; neither case is an error. -/
theorem claim_C3_missing_or_unassigned (env : Env) (ticket_id : Int)
    (event_type : String) (triggering_user_id : Option Int) :
    (env.fetchTicket ticket_id = .ok none →
      notify_assigned_user env ticket_id event_type triggering_user_id =
        .ok { logs := [⟨.warning, "ticket_not_found"⟩], sends := [] }) ∧
    (∀ t : Ticket, env.fetchTicket ticket_id = .ok (some t) →
      pyTruthyOptInt t.assigned_to = false →
      notify_assigned_user env ticket_id event_type triggering_user_id =
        .ok { logs := [⟨.info, "ticket_not_assigned"⟩], sends := [] }) := by
  constructor
  · intro h
    simp [notify_assigned_user, notify_assigned_user_body, h]
  · intro t h ha
    simp [notify_assigned_user, notify_assigned_user_body, h, ha]

/-- C3 witness: ticket #1 does not exist; ticket #2 exists but is
unassigned. -/
theorem claim_C3_missing_or_unassigned_witness :
    notify_assigned_user envUnassigned 1 "assigned" none =
      .ok { logs := [⟨.warning, "ticket_not_found"⟩], sends := [] } ∧
    notify_assigned_user envUnassigned 2 "assigned" none =
      .ok { logs := [⟨.info, "ticket_not_assigned"⟩], sends := [] } :=
  ⟨(claim_C3_missing_or_unassigned envUnassigned 1 "assigned" none).1 rfl,
   (claim_C3_missing_or_unassigned envUnassigned 2 "assigned" none).2
     ticketTwo rfl rfl⟩

/-- C4: `notify_assigned_user` returns normally on every input: whatever the
database oracle does (raise, miss, or return rows) and whatever the event
type and triggering user are, the catch-all handler converts any exception
from the body into a logged, silent return, so the result is always `.ok`. -/
theorem claim_C4_never_raises (env : Env) (ticket_id : Int)
    (event_type : String) (triggering_user_id : Option Int) :
    ∃ r : DispatchResult,
      notify_assigned_user env ticket_id event_type triggering_user_id =
        .ok r := by
  unfold notify_assigned_user
  cases notify_assigned_user_body env ticket_id event_type triggering_user_id
  · exact ⟨_, rfl⟩
  · exact ⟨_, rfl⟩

/-- C5: the claim says an unrecognized event type makes the dispatcher log a
warning and schedule zero sends.  At the failing input (existing ticket #7,
assignee user 2, triggering user 1, event type "bogus_value") the code never
reaches the unknown-event warning branch (line 239): the `url_for` evaluation
at line 224 precedes the event-type dispatch and raises `NameError`, so the
catch-all logs an error instead.  Zero sends are indeed scheduled.  This
theorem evaluates the code at that failing input: the sole log event is the
catch-all error, not a warning. -/
theorem claim_C5_unknown_event_code_result :
    notify_assigned_user envSeven 7 "bogus_value" (some 1) =
      .ok { logs := [⟨.error, "notify_unexpected_error"⟩], sends := [] } :=
  rfl

/-- C9: on every input that passes the ticket, assignee, self-suppression
checks, message construction evaluates the unbound name `url_for`, whose
`NameError` the catch-all handler logs and swallows (first two conjuncts);
consequently `notify_assigned_user` schedules zero channel sends on every
possible input (third conjunct). -/
theorem claim_C9_url_for_dead_code (env : Env) (ticket_id : Int)
    (event_type : String) (triggering_user_id : Option Int)
    (t : Ticket) (u : User)
    (ht : env.fetchTicket ticket_id = .ok (some t))
    (ha : pyTruthyOptInt t.assigned_to = true)
    (hu : env.fetchUser (t.assigned_to.getD 0) = .ok (some u))
    (hs : triggering_user_id ≠ some u.id) :
    buildMessage ticket_id event_type t = .error (.nameError "url_for") ∧
    notify_assigned_user env ticket_id event_type triggering_user_id =
      .ok { logs := [⟨.error, "notify_unexpected_error"⟩], sends := [] } ∧
    (∀ (env2 : Env) (tid2 : Int) (et2 : String) (tuid2 : Option Int)
      (r : DispatchResult),
      notify_assigned_user env2 tid2 et2 tuid2 = .ok r → r.sends = []) := by
  refine ⟨buildMessage_always_error _ _ _, ?_, ?_⟩
  · simp [notify_assigned_user, notify_assigned_user_body, ht, ha, hu, hs,
      buildMessage_always_error]
  · intro env2 tid2 et2 tuid2 r h
    unfold notify_assigned_user at h
    cases hb : notify_assigned_user_body env2 tid2 et2 tuid2 with
    | error e =>
      rw [hb] at h
      injection h with h2
      subst h2
      rfl
    | ok r2 =>
      rw [hb] at h
      injection h with h2
      subst h2
      exact notify_body_sends_nil env2 tid2 et2 tuid2 r2 hb

/-- C9 witness: a "new_comment" event on ticket #7 by user 1 passes every
check and still produces zero sends, via the swallowed `NameError`. -/
theorem claim_C9_url_for_dead_code_witness :
    buildMessage 7 "new_comment" ticketSeven =
      .error (.nameError "url_for") ∧
    notify_assigned_user envSeven 7 "new_comment" (some 1) =
      .ok { logs := [⟨.error, "notify_unexpected_error"⟩], sends := [] } ∧
    (∀ (env2 : Env) (tid2 : Int) (et2 : String) (tuid2 : Option Int)
      (r : DispatchResult),
      notify_assigned_user env2 tid2 et2 tuid2 = .ok r → r.sends = []) :=
  claim_C9_url_for_dead_code envSeven 7 "new_comment" (some 1) ticketSeven
    userTwo rfl rfl rfl (by decide)

/-- Reduction of `test_smtp_connection` once the settings load succeeded, the
port parsed, and the server is configured: the result is determined by the
handshake session (and its trace is the session trace). -/
theorem test_smtp_connection_reduce (settings : Settings) (net : SmtpOracle)
    (p : Int) (hp : pyIntParse ((settings "smtp_port").getD "587") = some p)
    (hh : (settings "smtp_server").getD "" ≠ "") :
    test_smtp_connection (.ok settings) net =
      ((match (testSmtpSession net ((settings "smtp_server").getD "") p
          ((settings "smtp_use_tls").getD "0" == "1")
          ((settings "smtp_username").getD "")
          ((settings "smtp_password").getD "")).2 with
        | none => SmtpTestResult.ok
        | some e => SmtpTestResult.runtimeError e),
       (testSmtpSession net ((settings "smtp_server").getD "") p
          ((settings "smtp_use_tls").getD "0" == "1")
          ((settings "smtp_username").getD "")
          ((settings "smtp_password").getD "")).1) := by
  simp only [test_smtp_connection, hp, if_neg hh]
  cases hs2 : (testSmtpSession net ((settings "smtp_server").getD "") p
      ((settings "smtp_use_tls").getD "0" == "1")
      ((settings "smtp_username").getD "")
      ((settings "smtp_password").getD "")).2 with
  | none => simp [hs2]
  | some e => cases e <;> simp [hs2]

/-- C6: the self-test (i) raises a `ValueError` (configuration error) whenever
the mail host is unset, (ii) raises a `RuntimeError` wrapping the underlying
exception whenever the connect / STARTTLS / login handshake fails, (iii)
returns True exactly when the whole handshake succeeds, and (iv) never
performs a `send_message`. -/
theorem claim_C6_test_smtp_connection (settings : Settings)
    (net : SmtpOracle) :
    ((settings "smtp_server").getD "" = "" →
      (test_smtp_connection (.ok settings) net).1.isValueError = true) ∧
    (∀ p : Int, pyIntParse ((settings "smtp_port").getD "587") = some p →
      (settings "smtp_server").getD "" ≠ "" →
      (∀ e : PyExn,
        (testSmtpSession net ((settings "smtp_server").getD "") p
          ((settings "smtp_use_tls").getD "0" == "1")
          ((settings "smtp_username").getD "")
          ((settings "smtp_password").getD "")).2 = some e →
        (test_smtp_connection (.ok settings) net).1 =
          SmtpTestResult.runtimeError e) ∧
      ((test_smtp_connection (.ok settings) net).1 = SmtpTestResult.ok ↔
        (testSmtpSession net ((settings "smtp_server").getD "") p
          ((settings "smtp_use_tls").getD "0" == "1")
          ((settings "smtp_username").getD "")
          ((settings "smtp_password").getD "")).2 = none)) ∧
    (∀ rs : List String,
      SmtpAction.sendMessage rs ∉ (test_smtp_connection (.ok settings) net).2) := by
  refine ⟨?_, ?_, ?_⟩
  · intro hhost
    cases hp : pyIntParse ((settings "smtp_port").getD "587") with
    | none => simp [test_smtp_connection, hp, SmtpTestResult.isValueError]
    | some p => simp [test_smtp_connection, hp, hhost, SmtpTestResult.isValueError]
  · intro p hp hh
    rw [test_smtp_connection_reduce settings net p hp hh]
    constructor
    · intro e he
      rw [he]
    · cases hs2 : (testSmtpSession net ((settings "smtp_server").getD "") p
          ((settings "smtp_use_tls").getD "0" == "1")
          ((settings "smtp_username").getD "")
          ((settings "smtp_password").getD "")).2 with
      | none => simp [hs2]
      | some e => simp [hs2]
  · intro rs
    cases hp : pyIntParse ((settings "smtp_port").getD "587") with
    | none => simp [test_smtp_connection, hp]
    | some p =>
      by_cases hh : (settings "smtp_server").getD "" = ""
      · simp [test_smtp_connection, hp, hh]
      · rw [test_smtp_connection_reduce settings net p hp hh]
        exact testSmtpSession_no_send net ((settings "smtp_server").getD "") p
          ((settings "smtp_use_tls").getD "0" == "1")
          ((settings "smtp_username").getD "")
          ((settings "smtp_password").getD "") rs

/-- C6 witness: with no settings at all the self-test ends in a ValueError;
with a full, correctly authenticating setup it returns True. -/
theorem claim_C6_test_smtp_connection_witness :
    (test_smtp_connection (.ok settingsHostless) netAllOk).1.isValueError =
      true ∧
    (test_smtp_connection (.ok settingsFull) netAllOk).1 = SmtpTestResult.ok :=
  ⟨(claim_C6_test_smtp_connection settingsHostless netAllOk).1 rfl,
   (((claim_C6_test_smtp_connection settingsFull netAllOk).2.1 2525
     (by decide) (by decide)).2).mpr (by decide)⟩

/-- C7 counterexample: the claim says that an unset from-address makes
`send_email_notification` return without attempting a connection.  With the
host configured and the `smtp_from_email` key absent, the code substitutes
the default from-address `"no-reply@example.com"` and attempts the
connection: the connect action is in the trace. -/
theorem claim_C7_counterexample :
    SmtpAction.connect "mail.example.com" 587 15 ∈
      (send_email_notification (.ok settingsHostOnly) netAllOk
        "s" "b" "to@example.com").2 := by
  decide

/-- C7 (amended): when the mail host setting is unset or empty, or the
from-address setting is present with an empty value, the Mail Sender logs a
configuration warning and returns normally with no connection attempted.  (An
absent from-address key instead falls back to the default
`"no-reply@example.com"` and does not suppress the send.) -/
theorem claim_C7_amended (settings : Settings) (net : SmtpOracle)
    (subject body to_email : String)
    (h : (settings "smtp_server").getD "" = "" ∨
      settings "smtp_from_email" = some "") :
    (send_email_notification (.ok settings) net subject body to_email).2 =
      [] ∧
    LogEvent.mk .warning "smtp_not_configured" ∈
      (send_email_notification (.ok settings) net subject body to_email).1 := by
  have hguard : (settings "smtp_server").getD "" = "" ∨
      (settings "smtp_from_email").getD "no-reply@example.com" = "" := by
    rcases h with h | h
    · exact .inl h
    · right
      rw [h]
      rfl
  constructor
  · simp [send_email_notification, if_pos hguard]
  · simp only [send_email_notification, if_pos hguard]
    exact List.mem_append_right _ (List.mem_singleton.mpr rfl)

/-- C7 witness: host configured, from-address present but empty: warning and
no connection. -/
theorem claim_C7_amended_witness :
    (send_email_notification (.ok settingsEmptyFrom) netAllOk
      "s" "b" "to@example.com").2 = [] ∧
    LogEvent.mk .warning "smtp_not_configured" ∈
      (send_email_notification (.ok settingsEmptyFrom) netAllOk
        "s" "b" "to@example.com").1 :=
  claim_C7_amended settingsEmptyFrom netAllOk "s" "b" "to@example.com"
    (Or.inr rfl)

/-- C8: whenever the Mail Sender reaches the connection stage (host and
from-address configured) and the transport succeeds, the session performs
exactly: one connect bounded by `timeout=15`, a STARTTLS if and only if the
TLS flag setting equals "1", a login if and only if username and password are
both non-empty, and then exactly one send of a single-recipient message. -/
theorem claim_C8_email_session (settings : Settings) (net : SmtpOracle)
    (subject body to_email : String)
    (hs : (settings "smtp_server").getD "" ≠ "")
    (hf : (settings "smtp_from_email").getD "no-reply@example.com" ≠ "")
    (hc : net.connectR ((settings "smtp_server").getD "")
      ((pyIntParse ((settings "smtp_port").getD "587")).getD 587) = none)
    (htls : net.starttlsR = none)
    (hlg : net.loginR ((settings "smtp_username").getD "")
      ((settings "smtp_password").getD "") = none)
    (hsend : net.sendR = none) :
    ((send_email_notification (.ok settings) net subject body to_email).2 =
      SmtpAction.connect ((settings "smtp_server").getD "")
          ((pyIntParse ((settings "smtp_port").getD "587")).getD 587) 15 ::
        ((if (settings "smtp_use_tls").getD "0" == "1" then
            [SmtpAction.starttls] else []) ++
         (if (settings "smtp_username").getD "" != "" &&
             (settings "smtp_password").getD "" != "" then
            [SmtpAction.login ((settings "smtp_username").getD "")]
          else []) ++
         [SmtpAction.sendMessage [to_email]])) ∧
    (SmtpAction.starttls ∈
        (send_email_notification (.ok settings) net subject body to_email).2 ↔
      (settings "smtp_use_tls").getD "0" = "1") ∧
    ((∃ u, SmtpAction.login u ∈
        (send_email_notification (.ok settings) net subject body to_email).2) ↔
      ((settings "smtp_username").getD "" ≠ "" ∧
       (settings "smtp_password").getD "" ≠ "")) ∧
    ((send_email_notification (.ok settings) net subject body
        to_email).2.filter (fun a => a.isSend) =
      [SmtpAction.sendMessage [to_email]]) := by
  have hguard : ¬ ((settings "smtp_server").getD "" = "" ∨
      (settings "smtp_from_email").getD "no-reply@example.com" = "") := by
    push_neg
    exact ⟨hs, hf⟩
  have hsess := emailSmtpSession_success net ((settings "smtp_server").getD "")
    ((pyIntParse ((settings "smtp_port").getD "587")).getD 587)
    ((settings "smtp_use_tls").getD "0" == "1")
    ((settings "smtp_username").getD "") ((settings "smtp_password").getD "")
    to_email hc htls hlg hsend
  have key : (send_email_notification (.ok settings) net subject body
      to_email).2 =
      SmtpAction.connect ((settings "smtp_server").getD "")
          ((pyIntParse ((settings "smtp_port").getD "587")).getD 587) 15 ::
        ((if (settings "smtp_use_tls").getD "0" == "1" then
            [SmtpAction.starttls] else []) ++
         (if (settings "smtp_username").getD "" != "" &&
             (settings "smtp_password").getD "" != "" then
            [SmtpAction.login ((settings "smtp_username").getD "")]
          else []) ++
         [SmtpAction.sendMessage [to_email]]) := by
    simp only [send_email_notification, if_neg hguard, hsess]
  have tlsFact : (((settings "smtp_use_tls").getD "0" == "1") = true) ↔
      (settings "smtp_use_tls").getD "0" = "1" := by
    simp
  have loginFact : (((settings "smtp_username").getD "" != "" &&
      (settings "smtp_password").getD "" != "") = true) ↔
      ((settings "smtp_username").getD "" ≠ "" ∧
       (settings "smtp_password").getD "" ≠ "") := by
    simp
  refine ⟨key, ?_, ?_, ?_⟩
  · rw [key, ← tlsFact]
    cases hb : (settings "smtp_use_tls").getD "0" == "1" <;>
      cases hb2 : ((settings "smtp_username").getD "" != "" &&
        (settings "smtp_password").getD "" != "") <;>
      simp [hb, hb2]
  · rw [key, ← loginFact]
    cases hb : (settings "smtp_use_tls").getD "0" == "1" <;>
      cases hb2 : ((settings "smtp_username").getD "" != "" &&
        (settings "smtp_password").getD "" != "") <;>
      simp [hb, hb2]
  · rw [key]
    cases hb : (settings "smtp_use_tls").getD "0" == "1" <;>
      cases hb2 : ((settings "smtp_username").getD "" != "" &&
        (settings "smtp_password").getD "" != "") <;>
      simp [hb, hb2, SmtpAction.isSend, List.filter]

/-- C8 witness: with the full setup (TLS on, credentials set) and a
cooperative server, the session is connect / STARTTLS / login / one
single-recipient send. -/
theorem claim_C8_email_session_witness :
    (send_email_notification (.ok settingsFull) netAllOk "s" "b"
      "dest@example.com").2 =
      [SmtpAction.connect "smtp.example.com" 2525 15, SmtpAction.starttls,
       SmtpAction.login "mailer",
       SmtpAction.sendMessage ["dest@example.com"]] := by
  have h := (claim_C8_email_session settingsFull netAllOk "s" "b"
    "dest@example.com" (by decide) (by decide) rfl rfl rfl rfl).1
  simpa using h

/-- C10: for a non-numeric mail port setting, the asynchronous Mail Sender
logs an invalid-port error, substitutes the default port 587 and still
proceeds to the connection attempt, whereas the synchronous
`test_smtp_connection` ends in a ValueError (with no SMTP action performed)
for the same settings instead of falling back. -/
theorem claim_C10_port_divergence (settings : Settings) (net : SmtpOracle)
    (subject body to_email : String)
    (hp : pyIntParse ((settings "smtp_port").getD "587") = none) :
    LogEvent.mk .error "invalid_smtp_port" ∈
      (send_email_notification (.ok settings) net subject body to_email).1 ∧
    ((settings "smtp_server").getD "" ≠ "" →
      (settings "smtp_from_email").getD "no-reply@example.com" ≠ "" →
      SmtpAction.connect ((settings "smtp_server").getD "") 587 15 ∈
        (send_email_notification (.ok settings) net subject body to_email).2) ∧
    ((test_smtp_connection (.ok settings) net).1.isValueError = true ∧
      (test_smtp_connection (.ok settings) net).2 = []) := by
  refine ⟨?_, ?_, ?_⟩
  · by_cases hg : ((settings "smtp_server").getD "" = "" ∨
        (settings "smtp_from_email").getD "no-reply@example.com" = "")
    · simp [send_email_notification, hp, if_pos hg]
    · simp only [send_email_notification, hp, if_neg hg]
      cases hs2 : (emailSmtpSession net ((settings "smtp_server").getD "")
          ((none : Option Int).getD 587)
          ((settings "smtp_use_tls").getD "0" == "1")
          ((settings "smtp_username").getD "")
          ((settings "smtp_password").getD "") to_email).2 <;>
        simp [hs2]
  · intro h1 h2
    have hg : ¬ ((settings "smtp_server").getD "" = "" ∨
        (settings "smtp_from_email").getD "no-reply@example.com" = "") := by
      push_neg
      exact ⟨h1, h2⟩
    simp only [send_email_notification, hp, if_neg hg]
    cases hs2 : (emailSmtpSession net ((settings "smtp_server").getD "")
        ((none : Option Int).getD 587)
        ((settings "smtp_use_tls").getD "0" == "1")
        ((settings "smtp_username").getD "")
        ((settings "smtp_password").getD "") to_email).2 <;>
      simpa [hs2] using emailSmtpSession_connect_mem net
        ((settings "smtp_server").getD "") 587
        ((settings "smtp_use_tls").getD "0" == "1")
        ((settings "smtp_username").getD "")
        ((settings "smtp_password").getD "") to_email
  · constructor <;>
      simp [test_smtp_connection, hp, SmtpTestResult.isValueError]

/-- C10 witness: `smtp_port = "abc"` with a configured host. -/
theorem claim_C10_port_divergence_witness :
    LogEvent.mk .error "invalid_smtp_port" ∈
      (send_email_notification (.ok settingsBadPort) netAllOk "s" "b"
        "to@example.com").1 ∧
    SmtpAction.connect "mail.example.com" 587 15 ∈
      (send_email_notification (.ok settingsBadPort) netAllOk "s" "b"
        "to@example.com").2 ∧
    (test_smtp_connection (.ok settingsBadPort) netAllOk).1.isValueError =
      true := by
  have h := claim_C10_port_divergence settingsBadPort netAllOk "s" "b"
    "to@example.com" (by decide)
  exact ⟨h.1, h.2.1 (by decide) (by decide), h.2.2.1⟩

end TicketSlave
